import Mathlib

/-!
Shallow embedding of the Pokémon inventory Telegram bot (`src/main.py`) and
verification of the spec's claims about it.

The external collaborators (Google-Sheets worksheets, the Telegram transport)
are modelled by their observable data: the Inventory worksheet is a list of
rows `(Product Name, Stock Type, Quantity)`, the Logs worksheet is an
append-only list of log rows, and each handler is a pure function from the
parsed message to the new sheet contents plus the reply text sent to the user.
Python strings are Lean `String`s (sequences of characters, `String.data`).
-/

set_option autoImplicit false

namespace PokemonBot

/-- The fixed shared secret, `OTP_CODE = "PPLaoBan"` (main.py line 46). -/
def OTP_CODE : String := "PPLaoBan"

/-- One row of the Inventory worksheet, as returned by
`inv_sheet.get_all_records()`: keys `Product Name`, `Stock Type`, `Quantity`. -/
structure InvRow where
  productName : String
  stockType : String
  quantity : Int
  deriving Repr, DecidableEq

/-- One row of the Logs worksheet, as appended by `log_action`
(main.py lines 58-60): `[now, action, product, stock_type, qty, "@user", note]`. -/
structure LogEntry where
  timestamp : String
  action : String
  product : String
  stockType : String
  quantity : Int
  user : String
  note : String
  deriving Repr, DecidableEq

/-- The match test of the scan in `update_inventory` (main.py line 67):
`row['Product Name'] == product and row['Stock Type'] == stock_type`. -/
def rowMatches (product stockType : String) (row : InvRow) : Bool :=
  row.productName == product && row.stockType == stockType

/-- Function `update_inventory(product, stock_type, delta)` (main.py lines
63-73), the
happy path (the sheet reachable): scan the records in order; on the first row
matching `(product, stock_type)`, overwrite its quantity cell with the old
quantity plus `delta` and stop; if no row matches, append the row
`[product, stock_type, delta]` at the end. -/
def update_inventory (records : List InvRow) (product stockType : String)
    (delta : Int) : List InvRow :=
  match records with
  | [] => [⟨product, stockType, delta⟩]
  | row :: rest =>
    if rowMatches product stockType row then
      { row with quantity := row.quantity + delta } :: rest
    else
      row :: update_inventory rest product stockType delta

/-- The quantity the sheet stores for `(product, stockType)`: the quantity of
the first matching row, if any (the lookup the `stock` command and the scan in
`update_inventory` both perform). -/
def find_quantity (records : List InvRow) (product stockType : String) :
    Option Int :=
  (records.find? (fun r => rowMatches product stockType r)).map
    (fun r => r.quantity)

/-- Function `log_action(action, product, qty, user, stock_type, note="")`
(main.py lines 58-60): append one row to the Logs worksheet; `now` is the
timestamp string `datetime.now(SG_TIME).strftime("%d/%m/%Y %H:%M:%S")`,
threaded in as a parameter of the embedding. -/
def log_action (log : List LogEntry) (action product : String) (qty : Int)
    (user stockType note : String) (now : String) : List LogEntry :=
  log ++ [⟨now, action, product, stockType, qty, "@" ++ user, note⟩]

/-- The full mutable collaborator state a handler can touch: the Inventory
worksheet, the Logs worksheet, and the process's internal error log
(`logging.error` output). -/
structure BotState where
  inv : List InvRow
  log : List LogEntry
  internalLog : List String
  deriving Repr, DecidableEq

/-- Wrapper around `update_inventory` as the handlers call it, with the
`try/except` of
main.py lines 64-73: when the Inventory worksheet is unreachable
(`storeDown = true`) every sheet call raises, the handler's state is left
unchanged, and the exception is swallowed after `logging.error(...)`; no
retry is attempted and no error escapes to the caller. -/
def update_inventory_run (storeDown : Bool) (s : BotState)
    (product stockType : String) (delta : Int) : BotState :=
  if storeDown then
    { s with internalLog := s.internalLog ++ ["Inventory update failed"] }
  else
    { s with inv := update_inventory s.inv product stockType delta }

/-- Decimal digit value of a character, `none` on a non-digit. -/
def digitVal (c : Char) : Option Nat :=
  if '0' ≤ c ∧ c ≤ '9' then some (c.toNat - '0'.toNat) else none

/-- Accumulate decimal digits; `none` as soon as a non-digit appears. -/
def parseNatCore : List Char → Nat → Option Nat
  | [], acc => some acc
  | c :: cs, acc =>
    match digitVal c with
    | some d => parseNatCore cs (acc * 10 + d)
    | none => none

/-- A non-empty all-digit character list as a natural number. -/
def parseNat (cs : List Char) : Option Nat :=
  match cs with
  | [] => none
  | _ => parseNatCore cs 0

/-- Python `int(text)` on a command argument: an optional sign followed by
decimal digits; `none` models the `ValueError` path. (Python's `int` also
tolerates surrounding whitespace and digit-group underscores; no claim
depends on those extra accepted forms.) -/
def parseQty (text : String) : Option Int :=
  match text.data with
  | '-' :: rest => (parseNat rest).map (fun n => -(n : Int))
  | '+' :: rest => (parseNat rest).map (fun n => (n : Int))
  | cs => (parseNat cs).map (fun n => (n : Int))

/-- Python `' '.join(parts)`. -/
def joinSpace : List String → String
  | [] => ""
  | [s] => s
  | s :: rest => s ++ " " ++ joinSpace rest

/-- The character set Python's `str.isspace` / `str.strip` treat as
whitespace: tab through carriage return (`\x09`–`\x0d`, so also vertical
tab and form feed), the separators `\x1c`–`\x1f`, space, next line
(`\x85`), no-break space (`\xa0`), ogham space mark (` `), the en/em
spaces ` `–` `, line separator (` `), paragraph separator
(` `), narrow no-break space (` `), medium mathematical space
(` `) and ideographic space (`　`). -/
def pyIsSpace (c : Char) : Bool :=
  c == ' ' || ('\x09' ≤ c && c ≤ '\x0d') || ('\x1c' ≤ c && c ≤ '\x1f') ||
    c == '\x85' || c == '\xa0' || c == ' ' ||
    (' ' ≤ c && c ≤ ' ') || c == ' ' || c == ' ' ||
    c == ' ' || c == ' ' || c == '　'

/-- Python `text.strip()`: drop leading and trailing whitespace. -/
def pyStrip (s : String) : String :=
  ⟨(((s.data.dropWhile pyIsSpace).reverse).dropWhile
      pyIsSpace).reverse⟩

/-- The reply of a handler invocation. -/
def usageAdd : String :=
  "❗ Usage: /add product_name qty [Loose|Keep Sealed|Bag of 50]"

def usageMinus : String :=
  "❗ Usage: /minus product_name qty [Loose|Keep Sealed|Bag of 50]"

def usageOpen : String :=
  "❗ Usage: /open product_name qty stock_type note"

def addedMsg (qty : Int) (product stockType : String) : String :=
  "✅ Added " ++ toString qty ++ " of " ++ product ++ " (" ++
    stockType ++ ")."

def subtractedMsg (qty : Int) (product stockType : String) : String :=
  "❌ Subtracted " ++ toString qty ++ " of " ++ product ++ " (" ++
    stockType ++ ")."

def openedMsg (qty : Int) (product stockType note : String) : String :=
  "📦 Opened " ++ toString qty ++ " of " ++ product ++ " (" ++
    stockType ++ ") - " ++ note

/-- The `/add` handler (main.py lines 134-144). `args` is `context.args`, the
whitespace-split words after the command. `product = args[0]` and
`qty = int(args[1])` raise on a missing argument or a non-integer quantity;
the bare `except` then replies with the usage message, before any sheet
write. On success: `update_inventory(product, stock_type, qty)`, then
`log_action("Add", ...)`, then the confirmation reply. -/
def add (storeDown : Bool) (s : BotState) (args : List String)
    (user now : String) : BotState × String :=
  match args with
  | product :: qtyStr :: rest =>
    match parseQty qtyStr with
    | some qty =>
      let stockType := rest.headD "Loose"
      let s1 := update_inventory_run storeDown s product stockType qty
      let s2 := { s1 with
        log := log_action s1.log "Add" product qty user stockType "" now }
      (s2, addedMsg qty product stockType)
    | none => (s, usageAdd)
  | _ => (s, usageAdd)

/-- The `/minus` handler (main.py lines 146-156): identical to `/add` except the
delta passed to `update_inventory` is `-qty` while `log_action` still
receives `qty` as parsed. -/
def minus (storeDown : Bool) (s : BotState) (args : List String)
    (user now : String) : BotState × String :=
  match args with
  | product :: qtyStr :: rest =>
    match parseQty qtyStr with
    | some qty =>
      let stockType := rest.headD "Loose"
      let s1 := update_inventory_run storeDown s product stockType (-qty)
      let s2 := { s1 with
        log := log_action s1.log "Minus" product qty user stockType "" now }
      (s2, subtractedMsg qty product stockType)
    | none => (s, usageMinus)
  | _ => (s, usageMinus)

/-- The `/open` handler (main.py lines 158-169): `stock_type = args[2]` is
mandatory; `note = ' '.join(args[3:]) or "Opened for singles"` (the empty
join is falsy, so an omitted note defaults); delta is `-qty`; the log entry
carries the note. -/
def open_product (storeDown : Bool) (s : BotState) (args : List String)
    (user now : String) : BotState × String :=
  match args with
  | product :: qtyStr :: stockType :: rest =>
    match parseQty qtyStr with
    | some qty =>
      let note := if joinSpace rest = "" then "Opened for singles"
        else joinSpace rest
      let s1 := update_inventory_run storeDown s product stockType (-qty)
      let s2 := { s1 with
        log := log_action s1.log "Open" product qty user stockType note now }
      (s2, openedMsg qty product stockType note)
    | none => (s, usageOpen)
  | _ => (s, usageOpen)

/-- Handler `otp_handler` (main.py lines 83-93): an incoming free-text
message from
`user_id`. The text is stripped of surrounding whitespace; an already
authorized user gets no reply; a stripped text equal to `OTP_CODE` adds the
user to `AUTHORIZED_USERS` and replies with the success message; anything
else replies with the denial. Returns the new authorized set and the reply,
`none` when the handler returns silently. -/
def otp_handler (authorized : Finset Nat) (userId : Nat) (text : String) :
    Finset Nat × Option String :=
  let messageText := pyStrip text
  if userId ∈ authorized then
    (authorized, none)
  else if messageText == OTP_CODE then
    (insert userId authorized, some "✅ Login successful!")
  else
    (authorized, some "❌ Invalid OTP. Please try again.")

/-- Python `timestamp.startswith(today)` over strings as character
sequences. -/
def startswith (s pre : String) : Bool :=
  pre.data.isPrefixOf s.data

/-- The filter of `report` (main.py line 195):
`[r for r in records if r['Timestamp'].startswith(today)]` where `today` is
`datetime.now(SG_TIME).strftime("%d/%m/%Y")`. -/
def reportFilter (records : List LogEntry) (today : String) :
    List LogEntry :=
  records.filter (fun r => startswith r.timestamp today)

/-- The date component of a timestamp rendered as
`"%d/%m/%Y %H:%M:%S"`: its first 10 characters. -/
def datePart (timestamp : String) : String :=
  ⟨timestamp.data.take 10⟩

/-- Modelled from the spec: the guided update flow of spec section 4.2. The
multi-step conversation (states Idle, SelectingProduct, SelectingStockType,
EnteringQuantity) is not implemented in `src/main.py` — its `button_handler`
only prints prompts — so the state machine is taken from the spec's
transition table. -/
inductive FlowState where
  | idle
  | selectingProduct
  | selectingStockType
  | enteringQuantity
  deriving Repr, DecidableEq

/-- Modelled from the spec: the action kinds a menu selection can start
(spec section 4.2). -/
inductive ActionKind where
  | addStock
  | minusStock
  deriving Repr, DecidableEq

/-- Modelled from the spec: one user interaction delivered to the guided
flow (spec sections 4.1-4.2): a menu selection of an action kind, a product
selection, a stock-type selection, or a free-text message. -/
inductive FlowInput where
  | selectAction (kind : ActionKind)
  | selectProduct (name : String)
  | selectStockType (stockType : String)
  | submitText (text : String)
  deriving Repr, DecidableEq

/-- Modelled from the spec: one user's session (spec section 3): the
authorization flag and the current guided-flow state. -/
structure GuidedSession where
  authorized : Bool
  flow : FlowState
  deriving Repr, DecidableEq

/-- Modelled from the spec: the transition function of the guided flow
(spec sections 4.1-4.2). The Idle -> SelectingProduct transition is guarded
by authorization; free text from an unauthorized identity is a passcode
attempt compared to the secret with exact string equality (spec section
4.1); free text from an authorized identity in EnteringQuantity ends the
flow (commit or abandon, both return to Idle). -/
def guidedStep (s : GuidedSession) (i : FlowInput) : GuidedSession :=
  match i with
  | .selectAction _ =>
    if s.authorized ∧ s.flow = .idle then { s with flow := .selectingProduct }
    else s
  | .selectProduct _ =>
    if s.flow = .selectingProduct then { s with flow := .selectingStockType }
    else s
  | .selectStockType _ =>
    if s.flow = .selectingStockType then { s with flow := .enteringQuantity }
    else s
  | .submitText t =>
    if s.authorized = false then { s with authorized := t == OTP_CODE }
    else if s.flow = .enteringQuantity then { s with flow := .idle }
    else s

/-- Run the guided flow over a sequence of interactions. -/
def runFlow (s : GuidedSession) (inputs : List FlowInput) : GuidedSession :=
  inputs.foldl guidedStep s

/-- No interaction of the sequence submits the correct passcode: such an
identity stays unauthorized. -/
def avoidsSecret (inputs : List FlowInput) : Bool :=
  inputs.all fun i =>
    match i with
    | .submitText t => t != OTP_CODE
    | _ => true

theorem update_inventory_no_match (records : List InvRow)
    (product stockType : String) (delta : Int)
    (h : ∀ r ∈ records, rowMatches product stockType r = false) :
    update_inventory records product stockType delta =
      records ++ [⟨product, stockType, delta⟩] := by
  induction records with
  | nil => rfl
  | cons row rest ih =>
    have hrow := h row (List.mem_cons_self row rest)
    simp only [update_inventory, hrow, if_neg Bool.false_ne_true,
      List.cons_append, Bool.false_eq_true, if_false]
    exact congrArg (row :: ·) (ih fun r hr => h r (List.mem_cons_of_mem _ hr))

theorem update_inventory_split (pre : List InvRow) (row : InvRow)
    (post : List InvRow) (product stockType : String) (delta : Int)
    (hpre : ∀ r ∈ pre, rowMatches product stockType r = false)
    (hrow : rowMatches product stockType row = true) :
    update_inventory (pre ++ row :: post) product stockType delta =
      pre ++ { row with quantity := row.quantity + delta } :: post := by
  induction pre with
  | nil => simp [update_inventory, hrow]
  | cons p ps ih =>
    have hp := hpre p (List.mem_cons_self p ps)
    simp only [List.cons_append, update_inventory, hp, Bool.false_eq_true,
      if_false]
    exact congrArg (p :: ·)
      (ih fun r hr => hpre r (List.mem_cons_of_mem _ hr))

/-- Any list with a row satisfying `p` splits as a prefix of non-matching
rows, the first matching row, and the remainder. -/
theorem exists_first_match {α : Type} (p : α → Bool) (l : List α)
    (h : ∃ x ∈ l, p x = true) :
    ∃ pre row post, l = pre ++ row :: post ∧
      (∀ r ∈ pre, p r = false) ∧ p row = true := by
  induction l with
  | nil => simp at h
  | cons a rest ih =>
    by_cases ha : p a = true
    · exact ⟨[], a, rest, rfl, by simp, ha⟩
    · obtain ⟨x, hx, hpx⟩ := h
      rcases List.mem_cons.mp hx with hxa | hxr
      · exact absurd (hxa ▸ hpx) ha
      · obtain ⟨pre, row, post, hl, hpre, hrow⟩ := ih ⟨x, hxr, hpx⟩
        exact ⟨a :: pre, row, post, by rw [hl]; rfl,
          fun r hr => by
            rcases List.mem_cons.mp hr with h1 | h2
            · exact h1 ▸ Bool.eq_false_iff.mpr ha
            · exact hpre r h2,
          hrow⟩

/-- The stored quantity after `update_inventory`: the previous stored quantity
(0 when the pair was absent) plus `delta`, with no clamp of any kind. -/
theorem find_quantity_update (records : List InvRow)
    (product stockType : String) (delta : Int) :
    find_quantity (update_inventory records product stockType delta)
        product stockType =
      some ((find_quantity records product stockType).getD 0 + delta) := by
  induction records with
  | nil => simp [update_inventory, find_quantity, rowMatches]
  | cons row rest ih =>
    by_cases h : rowMatches product stockType row = true
    · simp [update_inventory, h, find_quantity, List.find?_cons,
        rowMatches] at *
      simp_all [Int.add_comm]
    · have h' : rowMatches product stockType row = false :=
        Bool.eq_false_iff.mpr h
      simp [update_inventory, h', find_quantity, List.find?_cons] at *
      exact ih

/-- A double update that first subtracts and then adds the same quantity
returns the records unchanged, provided some row matches the pair. -/
theorem update_inventory_cancel (records : List InvRow)
    (product stockType : String) (qty : Int)
    (h : ∃ r ∈ records, rowMatches product stockType r = true) :
    update_inventory (update_inventory records product stockType (-qty))
        product stockType qty = records := by
  obtain ⟨pre, row, post, rfl, hpre, hrow⟩ :=
    exists_first_match (rowMatches product stockType) _ h
  rw [update_inventory_split pre row post product stockType (-qty) hpre hrow,
    update_inventory_split pre { row with quantity := row.quantity + -qty }
      post product stockType qty hpre hrow]
  have hq : row.quantity + -qty + qty = row.quantity := by ring
  show pre ++ { row with quantity := row.quantity + -qty + qty } :: post =
    pre ++ row :: post
  rw [hq]

/-- C1: for every store state and every `(product, stockType, delta)`:
when no record matches, `update_inventory` appends the record
`(product, stockType, delta)` — also for negative `delta`, with no
floor-at-zero clamp; when a record matches, the first matching record's
quantity becomes the existing quantity plus `delta`. -/
theorem update_inventory_upsert (records : List InvRow)
    (product stockType : String) (delta : Int) :
    ((∀ r ∈ records, rowMatches product stockType r = false) →
      update_inventory records product stockType delta =
        records ++ [⟨product, stockType, delta⟩])
    ∧ ∀ pre row post,
        records = pre ++ row :: post →
        (∀ r ∈ pre, rowMatches product stockType r = false) →
        rowMatches product stockType row = true →
        update_inventory records product stockType delta =
          pre ++ { row with quantity := row.quantity + delta } :: post := by
  refine ⟨update_inventory_no_match records product stockType delta,
    fun pre row post heq hpre hrow => ?_⟩
  subst heq
  exact update_inventory_split pre row post product stockType delta hpre hrow

theorem update_inventory_upsert_witness :
    update_inventory [⟨"Pikachu", "Loose", 4⟩] "Charizard" "Loose" (-3) =
      [⟨"Pikachu", "Loose", 4⟩] ++ [⟨"Charizard", "Loose", -3⟩] :=
  (update_inventory_upsert [⟨"Pikachu", "Loose", 4⟩] "Charizard" "Loose"
    (-3)).1 (by decide)

/-- C10: when the store holds two or more rows matching the same
`(product, stockType)` pair, `update_inventory` rewrites only the first
matching row; the rows before it and every row after it — the further
matching rows included — are returned unchanged. -/
theorem update_inventory_first_match_only (product stockType : String)
    (delta : Int) (pre : List InvRow) (row : InvRow) (post : List InvRow)
    (hpre : ∀ r ∈ pre, rowMatches product stockType r = false)
    (hrow : rowMatches product stockType row = true)
    (_hdup : ∃ r ∈ post, rowMatches product stockType r = true) :
    update_inventory (pre ++ row :: post) product stockType delta =
      pre ++ { row with quantity := row.quantity + delta } :: post :=
  update_inventory_split pre row post product stockType delta hpre hrow

theorem update_inventory_first_match_only_witness :
    update_inventory
        ([⟨"Pikachu", "Loose", 1⟩] ++ ⟨"Charizard", "Loose", 5⟩ ::
          [⟨"Charizard", "Loose", 7⟩]) "Charizard" "Loose" 2 =
      [⟨"Pikachu", "Loose", 1⟩, ⟨"Charizard", "Loose", 7⟩,
        ⟨"Charizard", "Loose", 7⟩] :=
  (update_inventory_first_match_only "Charizard" "Loose" 2
    [⟨"Pikachu", "Loose", 1⟩] ⟨"Charizard", "Loose", 5⟩
    [⟨"Charizard", "Loose", 7⟩] (by decide) (by decide)
    (by decide)).trans (by decide)

/-- C6 counterexample: on a store with no record for the pair,
`/minus Charizard 2 Loose` followed by `/add Charizard 2 Loose` does not
restore the original stored quantity: the lookup goes from `NotFound`
(`none`) to `0`, because `minus` created the row with quantity `-2` and
`add` then raised it to `0`. -/
theorem minus_add_roundtrip_cex :
    find_quantity [] "Charizard" "Loose" = none ∧
    ((add false
        ((minus false ⟨[], [], []⟩ ["Charizard", "2", "Loose"] "u" "t1").1)
        ["Charizard", "2", "Loose"] "u" "t2").1).inv =
      [⟨"Charizard", "Loose", 0⟩] ∧
    find_quantity [⟨"Charizard", "Loose", 0⟩] "Charizard" "Loose" =
      some 0 := by
  decide

/-- C6 (amended): `/minus product qty stockType` followed by
`/add product qty stockType` restores the Inventory Store exactly whenever
some record already matches `(product, stockType)`; when none does, the
pair ends at quantity `0` in a freshly created row instead of staying
absent. -/
theorem minus_add_roundtrip (s : BotState)
    (product stockType qtyStr : String) (qty : Int) (user now1 now2 : String)
    (hq : parseQty qtyStr = some qty)
    (hmatch : ∃ r ∈ s.inv, rowMatches product stockType r = true) :
    ((add false
        ((minus false s [product, qtyStr, stockType] user now1).1)
        [product, qtyStr, stockType] user now2).1).inv = s.inv := by
  simp only [add, minus, hq, update_inventory_run, if_neg Bool.false_ne_true,
    Bool.false_eq_true, if_false, List.headD]
  exact update_inventory_cancel s.inv product stockType qty hmatch

theorem minus_add_roundtrip_witness :
    ((add false
        ((minus false ⟨[⟨"Charizard", "Loose", 5⟩], [], []⟩
          ["Charizard", "2", "Loose"] "u" "t1").1)
        ["Charizard", "2", "Loose"] "u" "t2").1).inv =
      [⟨"Charizard", "Loose", 5⟩] :=
  minus_add_roundtrip ⟨[⟨"Charizard", "Loose", 5⟩], [], []⟩
    "Charizard" "Loose" "2" 2 "u" "t1" "t2" (by decide) (by decide)

/-- C2: a mutating command whose argument list fails to parse — a missing
argument or a non-integer quantity — issues no write at all: the Inventory
Store, the Activity Log, and the internal log are exactly the state the
handler started from, whether or not the store is reachable, and the reply
is the command's fixed usage message. -/
theorem mutating_parse_error_no_write (storeDown : Bool) (s : BotState)
    (args : List String) (user now : String) :
    ((args.length < 2 ∨
        ∃ qs, args[1]? = some qs ∧ parseQty qs = none) →
      add storeDown s args user now = (s, usageAdd) ∧
      minus storeDown s args user now = (s, usageMinus))
    ∧ ((args.length < 3 ∨
        ∃ qs, args[1]? = some qs ∧ parseQty qs = none) →
      open_product storeDown s args user now = (s, usageOpen)) := by
  constructor
  · intro h
    match args with
    | [] => exact ⟨rfl, rfl⟩
    | [_] => exact ⟨rfl, rfl⟩
    | product :: qtyStr :: rest =>
      rcases h with hlen | ⟨qs, hqs, hparse⟩
      · exact absurd hlen (by simp)
      · simp only [List.getElem?_cons_succ, List.getElem?_cons_zero,
          Option.some.injEq] at hqs
        subst hqs
        simp [add, minus, hparse]
  · intro h
    match args with
    | [] => exact rfl
    | [_] => exact rfl
    | [_, _] => exact rfl
    | product :: qtyStr :: stockType :: rest =>
      rcases h with hlen | ⟨qs, hqs, hparse⟩
      · exact absurd hlen (by simp)
      · simp only [List.getElem?_cons_succ, List.getElem?_cons_zero,
          Option.some.injEq] at hqs
        subst hqs
        simp [open_product, hparse]

theorem mutating_parse_error_no_write_witness :
    (add false ⟨[], [], []⟩ ["Pikachu", "x", "Loose"] "u" "t" =
        (⟨[], [], []⟩, usageAdd) ∧
      minus false ⟨[], [], []⟩ ["Pikachu", "x", "Loose"] "u" "t" =
        (⟨[], [], []⟩, usageMinus)) ∧
    open_product false ⟨[], [], []⟩ ["Pikachu", "x", "Loose"] "u" "t" =
      (⟨[], [], []⟩, usageOpen) :=
  ⟨(mutating_parse_error_no_write false ⟨[], [], []⟩ ["Pikachu", "x", "Loose"]
      "u" "t").1 (Or.inr ⟨"x", by decide, by decide⟩),
    (mutating_parse_error_no_write false ⟨[], [], []⟩ ["Pikachu", "x", "Loose"]
      "u" "t").2 (Or.inr ⟨"x", by decide, by decide⟩)⟩

/-- C3 counterexample: with the Inventory Store unreachable,
`/add Pikachu 3` leaves the store untouched and records the failure in the
internal log, yet the user's reply is the success confirmation
`"✅ Added 3 of Pikachu (Loose)."` — not a generic failure message. -/
theorem store_failure_reports_success_cex :
    add true ⟨[], [], []⟩ ["Pikachu", "3"] "u" "t" =
      (⟨[], [⟨"t", "Add", "Pikachu", "Loose", 3, "@u", ""⟩],
          ["Inventory update failed"]⟩,
        "✅ Added 3 of Pikachu (Loose).") := by
  decide

/-- C3 (amended): for every mutating command — `/add`, `/minus` and
`/open` — when the Inventory Store write fails, `update_inventory` catches
the exception itself: the failure is recorded once in the internal log with
no automatic retry, the store is left unchanged — but the handler carries
on, appends the Activity-Log entry, and replies with the ordinary success
confirmation; no failure of any kind is surfaced to the user. -/
theorem store_failure_swallowed (s : BotState)
    (product qtyStr stockType : String) (rest rest2 : List String)
    (qty : Int) (user now : String)
    (hq : parseQty qtyStr = some qty) :
    add true s (product :: qtyStr :: rest) user now =
      ({ inv := s.inv,
         log := s.log ++
           [⟨now, "Add", product, rest.headD "Loose", qty, "@" ++ user, ""⟩],
         internalLog := s.internalLog ++ ["Inventory update failed"] },
        addedMsg qty product (rest.headD "Loose")) ∧
    minus true s (product :: qtyStr :: rest) user now =
      ({ inv := s.inv,
         log := s.log ++
           [⟨now, "Minus", product, rest.headD "Loose", qty, "@" ++ user,
             ""⟩],
         internalLog := s.internalLog ++ ["Inventory update failed"] },
        subtractedMsg qty product (rest.headD "Loose")) ∧
    open_product true s (product :: qtyStr :: stockType :: rest2) user now =
      ({ inv := s.inv,
         log := s.log ++
           [⟨now, "Open", product, stockType, qty, "@" ++ user,
             if joinSpace rest2 = "" then "Opened for singles"
             else joinSpace rest2⟩],
         internalLog := s.internalLog ++ ["Inventory update failed"] },
        openedMsg qty product stockType
          (if joinSpace rest2 = "" then "Opened for singles"
           else joinSpace rest2)) := by
  refine ⟨?_, ?_, ?_⟩ <;>
    simp [add, minus, open_product, hq, update_inventory_run, log_action]

theorem store_failure_swallowed_witness :
    add true ⟨[], [], []⟩ ["Pikachu", "3"] "u" "t" =
      ({ inv := [],
         log := [] ++ [⟨"t", "Add", "Pikachu", "Loose", 3, "@u", ""⟩],
         internalLog := [] ++ ["Inventory update failed"] },
        addedMsg 3 "Pikachu" "Loose") ∧
    minus true ⟨[], [], []⟩ ["Pikachu", "3"] "u" "t" =
      ({ inv := [],
         log := [] ++ [⟨"t", "Minus", "Pikachu", "Loose", 3, "@u", ""⟩],
         internalLog := [] ++ ["Inventory update failed"] },
        subtractedMsg 3 "Pikachu" "Loose") ∧
    open_product true ⟨[], [], []⟩ ["Pikachu", "3", "Loose"] "u" "t" =
      ({ inv := [],
         log := [] ++ [⟨"t", "Open", "Pikachu", "Loose", 3, "@u",
           if joinSpace [] = "" then "Opened for singles"
           else joinSpace []⟩],
         internalLog := [] ++ ["Inventory update failed"] },
        openedMsg 3 "Pikachu" "Loose"
          (if joinSpace [] = "" then "Opened for singles"
           else joinSpace [])) :=
  store_failure_swallowed ⟨[], [], []⟩ "Pikachu" "3" "Loose" [] [] 3 "u" "t"
    (by decide)

/-- C8: `/open product qty stockType note…` applies delta `-qty` to the
Inventory Store entry for `(product, stockType)` — the stored quantity
becomes the previous one (0 if absent) minus `qty` — and when the note
arguments are omitted the logged note is the fixed default
`"Opened for singles"`. -/
theorem open_product_spec (s : BotState) (product qtyStr stockType : String)
    (rest : List String) (qty : Int) (user now : String)
    (hq : parseQty qtyStr = some qty) :
    find_quantity
        ((open_product false s (product :: qtyStr :: stockType :: rest)
          user now).1).inv product stockType =
      some ((find_quantity s.inv product stockType).getD 0 - qty) ∧
    (rest = [] →
      ((open_product false s (product :: qtyStr :: stockType :: rest)
          user now).1).log =
        s.log ++ [⟨now, "Open", product, stockType, qty, "@" ++ user,
          "Opened for singles"⟩]) := by
  constructor
  · simp only [open_product, hq, update_inventory_run,
      Bool.false_eq_true, if_false]
    rw [find_quantity_update, sub_eq_add_neg]
  · rintro rfl
    simp [open_product, hq, update_inventory_run, log_action, joinSpace]

theorem open_product_spec_witness :
    find_quantity
        ((open_product false ⟨[⟨"Charizard", "Loose", 5⟩], [], []⟩
          ["Charizard", "2", "Loose"] "u" "t").1).inv "Charizard" "Loose" =
      some ((find_quantity [⟨"Charizard", "Loose", 5⟩] "Charizard"
        "Loose").getD 0 - 2) ∧
    (([] : List String) = [] →
      ((open_product false ⟨[⟨"Charizard", "Loose", 5⟩], [], []⟩
          ["Charizard", "2", "Loose"] "u" "t").1).log =
        [] ++ [⟨"t", "Open", "Charizard", "Loose", 2, "@u",
          "Opened for singles"⟩]) :=
  open_product_spec ⟨[⟨"Charizard", "Loose", 5⟩], [], []⟩ "Charizard" "2"
    "Loose" [] 2 "u" "t" (by decide)

/-- C9 counterexample: `/add Pikachu -5` parses the quantity `-5` and logs
it as-is: the appended Activity-Log entry carries the negative quantity
`-5`, not a non-negative magnitude. -/
theorem log_negative_quantity_cex :
    ((add false ⟨[], [], []⟩ ["Pikachu", "-5"] "u" "t").1).log =
      [⟨"t", "Add", "Pikachu", "Loose", -5, "@u", ""⟩] ∧
    (-5 : Int) < 0 := by
  decide

/-- C9 (amended): every LogEntry appended by `add`, `minus` or `open`
records exactly the quantity the user supplied, as parsed — so it is a
non-negative magnitude whenever the supplied integer is non-negative, but a
supplied negative integer is recorded negative. -/
theorem log_quantity_as_parsed (storeDown : Bool) (s : BotState)
    (product qtyStr stockType : String) (rest rest2 : List String)
    (qty : Int) (user now : String)
    (hq : parseQty qtyStr = some qty) :
    ((add storeDown s (product :: qtyStr :: rest) user now).1).log =
      s.log ++
        [⟨now, "Add", product, rest.headD "Loose", qty, "@" ++ user, ""⟩] ∧
    ((minus storeDown s (product :: qtyStr :: rest) user now).1).log =
      s.log ++
        [⟨now, "Minus", product, rest.headD "Loose", qty, "@" ++ user, ""⟩] ∧
    ((open_product storeDown s (product :: qtyStr :: stockType :: rest2)
        user now).1).log =
      s.log ++
        [⟨now, "Open", product, stockType, qty, "@" ++ user,
          if joinSpace rest2 = "" then "Opened for singles"
          else joinSpace rest2⟩] := by
  refine ⟨?_, ?_, ?_⟩ <;>
    cases storeDown <;>
      simp [add, minus, open_product, hq, update_inventory_run, log_action]

theorem log_quantity_as_parsed_witness :
    ((add false ⟨[], [], []⟩ ["Pikachu", "-5"] "u" "t").1).log =
      [] ++ [⟨"t", "Add", "Pikachu", ([] : List String).headD "Loose", -5,
        "@u", ""⟩] ∧
    ((minus false ⟨[], [], []⟩ ["Pikachu", "-5"] "u" "t").1).log =
      [] ++ [⟨"t", "Minus", "Pikachu", ([] : List String).headD "Loose", -5,
        "@u", ""⟩] ∧
    ((open_product false ⟨[], [], []⟩ ["Pikachu", "-5", "Loose"]
        "u" "t").1).log =
      [] ++ [⟨"t", "Open", "Pikachu", "Loose", -5, "@u",
        if joinSpace [] = "" then "Opened for singles"
        else joinSpace []⟩] :=
  log_quantity_as_parsed false ⟨[], [], []⟩ "Pikachu" "-5" "Loose" [] [] (-5)
    "u" "t" (by decide)

/-- C4 counterexample: `otp_handler` strips surrounding whitespace before
comparing, so the text `"PPLaoBan "` — which is not equal to the secret —
is nevertheless granted: the claim's exact-equality criterion does not
match the code. -/
theorem otp_exact_equality_cex :
    "PPLaoBan " ≠ OTP_CODE ∧
    otp_handler ∅ 1 "PPLaoBan " =
      (insert 1 ∅, some "✅ Login successful!") := by
  decide

/-- C4 (amended): for an identity not yet authorized, the passcode attempt
is granted — the identity is added to the authorized set and the reply is
the success message — exactly when the submitted text, stripped of leading
and trailing whitespace, equals the secret under case-sensitive string
equality; on any other text the reply is the denial and the identity
remains unauthorized. -/
theorem otp_attempt_spec (authorized : Finset Nat) (userId : Nat)
    (text : String) (h : userId ∉ authorized) :
    (pyStrip text = OTP_CODE →
      otp_handler authorized userId text =
        (insert userId authorized, some "✅ Login successful!")) ∧
    (pyStrip text ≠ OTP_CODE →
      otp_handler authorized userId text =
        (authorized, some "❌ Invalid OTP. Please try again.") ∧
      userId ∉ (otp_handler authorized userId text).1) := by
  constructor
  · intro hm
    simp [otp_handler, h, hm]
  · intro hm
    have hb : (pyStrip text == OTP_CODE) = false := by
      simpa using hm
    refine ⟨by simp [otp_handler, h, hb], ?_⟩
    simp [otp_handler, h, hb]

theorem otp_attempt_spec_witness :
    otp_handler ∅ 1 "PPLaoBan" = (insert 1 ∅, some "✅ Login successful!") :=
  (otp_attempt_spec ∅ 1 "PPLaoBan" (by decide)).1 (by decide)

/-- As long as no submitted text equals the secret, the whole session is
stuck at `⟨unauthorized, Idle⟩`. -/
theorem runFlow_unauthorized (inputs : List FlowInput)
    (h : avoidsSecret inputs = true) :
    runFlow ⟨false, FlowState.idle⟩ inputs = ⟨false, FlowState.idle⟩ := by
  induction inputs with
  | nil => rfl
  | cons i rest ih =>
    simp only [avoidsSecret, List.all_cons, Bool.and_eq_true] at h
    obtain ⟨hi, hrest⟩ := h
    have hstep : guidedStep ⟨false, FlowState.idle⟩ i =
        ⟨false, FlowState.idle⟩ := by
      cases i with
      | selectAction k => simp [guidedStep]
      | selectProduct n => simp [guidedStep]
      | selectStockType st => simp [guidedStep]
      | submitText t =>
        have hne : (t == OTP_CODE) = false := by
          simpa using hi
        simp [guidedStep, hne]
    simp only [runFlow, List.foldl_cons] at ih ⊢
    rw [hstep]
    exact ih hrest

/-- C5 (spec-modelled): at every point of every interaction sequence in
which the identity never submits the secret — so it stays unauthorized —
the guided flow has not reached `SelectingProduct`: the authorization guard
on the Idle → SelectingProduct transition holds for all inputs, menu
selections of Add or Minus included. -/
theorem guided_flow_auth_guard (pre suf : List FlowInput)
    (h : avoidsSecret (pre ++ suf) = true) :
    (runFlow ⟨false, FlowState.idle⟩ pre).flow ≠
      FlowState.selectingProduct := by
  have hpre : avoidsSecret pre = true := by
    simp only [avoidsSecret, List.all_append, Bool.and_eq_true] at h
    exact h.1
  rw [runFlow_unauthorized pre hpre]
  decide

theorem guided_flow_auth_guard_witness :
    (runFlow ⟨false, FlowState.idle⟩
        [FlowInput.selectAction ActionKind.addStock,
          FlowInput.submitText "hello",
          FlowInput.selectAction ActionKind.minusStock]).flow ≠
      FlowState.selectingProduct :=
  guided_flow_auth_guard
    [FlowInput.selectAction ActionKind.addStock,
      FlowInput.submitText "hello",
      FlowInput.selectAction ActionKind.minusStock] [] (by decide)

/-- A list is a Boolean prefix of a same-length list followed by anything
exactly when the two lists are equal. -/
theorem isPrefixOf_append_of_length_eq (a b c : List Char)
    (h : a.length = b.length) :
    a.isPrefixOf (b ++ c) = true ↔ a = b := by
  induction a generalizing b with
  | nil =>
    cases b with
    | nil => simp [List.isPrefixOf]
    | cons y ys => simp at h
  | cons x xs ih =>
    cases b with
    | nil => simp at h
    | cons y ys =>
      simp only [List.cons_append, List.isPrefixOf, List.append_eq,
        Bool.and_eq_true, beq_iff_eq, List.cons.injEq]
      rw [ih ys (by simpa using h)]

/-- C7: over any Activity-Log content whose timestamps are well formed —
a 10-character date (`"%d/%m/%Y"`), a space, then the time — `report`'s
filter keeps exactly the entries whose date component equals the current
local date string, and drops every other entry. -/
theorem report_filters_today (records : List LogEntry) (today : String)
    (htoday : today.data.length = 10)
    (hwf : ∀ r ∈ records, ∃ d t, r.timestamp = d ++ " " ++ t ∧
      d.data.length = 10) :
    reportFilter records today =
      records.filter (fun r => datePart r.timestamp == today) := by
  apply List.filter_congr
  intro r hr
  obtain ⟨d, t, hts, hd⟩ := hwf r hr
  rw [hts]
  have h1 : startswith (d ++ " " ++ t) today = true ↔ d = today := by
    unfold startswith
    rw [String.data_append, String.data_append, List.append_assoc,
      isPrefixOf_append_of_length_eq today.data d.data _
        (by rw [htoday, hd])]
    exact ⟨fun hx => String.ext hx.symm ▸ rfl, fun hx => by rw [hx]⟩
  have h2 : datePart (d ++ " " ++ t) = d := by
    unfold datePart
    rw [String.data_append, String.data_append, List.append_assoc]
    rw [show (10 : Nat) = d.data.length from hd.symm, List.take_left]
  rw [h2, Bool.eq_iff_iff, beq_iff_eq, h1]

theorem report_filters_today_witness :
    reportFilter
        [⟨"12/10/2026 08:00:00", "Add", "Pikachu", "Loose", 3, "@u", ""⟩,
          ⟨"11/10/2026 09:00:00", "Minus", "Eevee", "Loose", 1, "@u", ""⟩]
        "12/10/2026" =
      List.filter (fun r => datePart r.timestamp == "12/10/2026")
        [⟨"12/10/2026 08:00:00", "Add", "Pikachu", "Loose", 3, "@u", ""⟩,
          ⟨"11/10/2026 09:00:00", "Minus", "Eevee", "Loose", 1, "@u", ""⟩] ∧
    reportFilter
        [⟨"12/10/2026 08:00:00", "Add", "Pikachu", "Loose", 3, "@u", ""⟩,
          ⟨"11/10/2026 09:00:00", "Minus", "Eevee", "Loose", 1, "@u", ""⟩]
        "12/10/2026" =
      [⟨"12/10/2026 08:00:00", "Add", "Pikachu", "Loose", 3, "@u", ""⟩] :=
  ⟨report_filters_today _ "12/10/2026" (by decide)
      (by
        intro r hr
        simp only [List.mem_cons, List.not_mem_nil, or_false] at hr
        rcases hr with rfl | rfl
        · exact ⟨"12/10/2026", "08:00:00", by decide, by decide⟩
        · exact ⟨"11/10/2026", "09:00:00", by decide, by decide⟩),
    by decide⟩

end PokemonBot
